/-
Verification of the doctest discovery and execution harness in
`tests/test_docstrings.py`.

The harness has three parts, all embedded below:

* `_find_src_dir`  — walk up from a starting path to the nearest ancestor
  that has a `src` subdirectory; inside it, pick the parent of the
  lexicographically first `__init__.py`, or `src` itself if there is none.
* `iter_modules`   — module discovery: either for an explicitly named
  package, or automatically under the discovered `src` tree (inserting the
  `src` root onto `sys.path`, enumerating packages with `pkgutil`, and
  importing every candidate, skipping those that raise `ImportError`).
* `test_docstrings` — run `doctest.testmod` on every discovered module,
  aggregate attempted/failed counts, assert that no example failed, and
  warn when no example was attempted at all.

Filesystem model: a path is a list of name components from the filesystem
root; a filesystem is the list of its directory paths and file paths.
Python's `sorted` on `pathlib.Path` compares the full path *strings*, so
paths are ordered here by their "/"-joined rendering.

Import execution is abstracted into an environment `PyEnv`: importing a
dotted name either succeeds (producing the module's namespace bindings and
docstring examples), raises `ImportError`, or raises some other exception.
The environment is a fixed function, modelling deterministic module code on
an unchanged tree (Python additionally caches imported modules, so
repeated imports agree).
-/

import Mathlib

namespace Docstrings

/-- A filesystem path: name components from the root. -/
abbrev FPath := List String

/-- A filesystem: the set of directories and the set of files, each given by
its full path. -/
structure FS where
  dirs : List FPath
  files : List FPath
deriving DecidableEq

/-- `Path.is_dir()`: the path is one of the directories. -/
def FS.isDir (fs : FS) (p : FPath) : Bool := fs.dirs.contains p

/-- Render a path the way `str(Path(...))` does, for ordering purposes. -/
def pathStr (p : FPath) : String := "/" ++ String.intercalate "/" p

/-- Lexicographic strict comparison of character lists by code point —
how Python compares strings. -/
def charListLt : List Char → List Char → Bool
  | [], [] => false
  | [], _ :: _ => true
  | _ :: _, [] => false
  | a :: as, b :: bs =>
      if a.toNat < b.toNat then true
      else if b.toNat < a.toNat then false
      else charListLt as bs

/-- Python's `a < b` on strings. -/
def strLt (a b : String) : Bool := charListLt a.data b.data

/-- Python's `a <= b` on strings (total order, so the negation of the
reverse strict comparison). -/
def strLe (a b : String) : Bool := !strLt b a

/-- Path order used by `sorted()` on `pathlib.Path` objects: comparison of
the full path strings. -/
def pathLe (a b : FPath) : Bool := strLe (pathStr a) (pathStr b)

/-- Insert into a list sorted by `pathLe`. -/
def insertPath (x : FPath) : List FPath → List FPath
  | [] => [x]
  | y :: ys => if pathLe x y then x :: y :: ys else y :: insertPath x ys

/-- Sort paths by their full string rendering (insertion sort). -/
def sortPaths : List FPath → List FPath
  | [] => []
  | x :: xs => insertPath x (sortPaths xs)

/-- Is `q` strictly below directory `p`? -/
def strictBelow (p q : FPath) : Bool :=
  decide (p.length < q.length) && q.take p.length == p

/-- `root.rglob("__init__.py")`, sorted: every filesystem entry named
`__init__.py` strictly below `root`, in full-path-string order.  `rglob`
matches directories as well as files, so both lists are scanned. -/
def rglobInits (fs : FS) (root : FPath) : List FPath :=
  sortPaths ((fs.files ++ fs.dirs).filter
    (fun p => strictBelow root p && p.getLast? == some "__init__.py"))

/-- One step of `_find_src_dir` once a `src` directory has been found:
prefer the parent of the first `__init__.py` below it, else `src` itself. -/
def srcResult (fs : FS) (srcRoot : FPath) : FPath :=
  match rglobInits fs srcRoot with
  | [] => srcRoot
  | f :: _ => f.dropLast

/-- The upward walk of `_find_src_dir`, on the reversed component list of
the current path (so that moving to the parent is structural).  At the
filesystem root the loop checks `/src` one last time and then stops. -/
def findSrcAux (fs : FS) : List String → Option FPath
  | [] =>
      if fs.isDir ["src"] then some (srcResult fs ["src"]) else none
  | x :: rest =>
      let cur := (x :: rest).reverse
      if fs.isDir (cur ++ ["src"]) then some (srcResult fs (cur ++ ["src"]))
      else findSrcAux fs rest

/-- `_find_src_dir(start)`: walk up from `start` until a `src` directory is
found; within it prefer the parent of the first `__init__.py` (sorted),
else `src` itself; `none` when no ancestor has a `src` subdirectory. -/
def findSrcDir (fs : FS) (start : FPath) : Option FPath :=
  findSrcAux fs start.reverse

/-- Specification-side reading of package-root resolution, following the
spec's words rather than the loop: "locate the nearest ancestor directory"
with a `src` subdirectory — scan the ancestors of `start` (including
`start` itself) from nearest to farthest and take the first that has a
`src` subdirectory. -/
def nearestSrc (fs : FS) (start : FPath) : Option FPath :=
  (start.inits.reverse.find? (fun c => fs.isDir (c ++ ["src"]))).map
    (fun c => c ++ ["src"])

/-- Specification-side package-root resolution: within the nearest `src`,
the parent of the lexicographically first package-initializer entry when
one exists, otherwise `src` itself. -/
def findSrcDirSpec (fs : FS) (start : FPath) : Option FPath :=
  (nearestSrc fs start).map (srcResult fs)

/-!
## Modules, docstring examples, and `doctest.testmod`

A module's dynamic content — what executing its top-level code produces —
is its global namespace (a list of bound names) and the docstrings that
`doctest` collects from it (the module docstring and those of the
functions and classes it reaches), each a list of interactive examples.

An example is abstracted to: the names it needs bound in the evaluation
namespace (running it raises `NameError`, counted as a failure, when one
is missing), the names it binds when its code actually runs, and whether
its output matches the expected text under the active option flags
(`ELLIPSIS | NORMALIZE_WHITESPACE`).
-/

/-- One interactive example inside a docstring. -/
structure Ex where
  uses : List String
  binds : List String
  outOk : Bool
deriving DecidableEq

/-- The result of executing a module's top level: its global bindings and
the docstring example blocks `doctest` collects from it. -/
structure ModDyn where
  globs : List String
  docs : List (List Ex)
deriving DecidableEq

/-- A discovered (imported) module: dotted name, origin file (`__file__`),
submodule search path (`__path__`, present only for packages), and its
dynamic content. -/
structure PyMod where
  mname : String
  origin : Option FPath
  pkgDir : Option FPath
  dyn : ModDyn
deriving DecidableEq

/-- Outcome of `importlib.import_module` on a dotted name: success with the
module's dynamic content, an `ImportError`, or some other exception raised
by the module's top-level code. -/
inductive ImportRes where
  | ok (d : ModDyn)
  | importError
  | otherError
deriving DecidableEq

/-- The import environment: a fixed map from dotted names to import
outcomes (module code is deterministic and the tree is unchanged; Python's
module cache makes repeated imports of a name agree), plus the outcome
of importing an explicitly named package for the entry point
`iter_modules(package_name)`, which need not live under `src`. -/
structure PyEnv where
  importDyn : String → ImportRes
  named : String → Option PyMod

/-- Run one example in namespace `ns`: the code runs only when every name
it uses is bound (otherwise `NameError`, a failure); when it runs it adds
its bindings, and it passes exactly when its output matches. -/
def runEx (ns : List String) (e : Ex) : List String × Bool :=
  if e.uses.all ns.contains then (e.binds ++ ns, e.outOk) else (ns, false)

/-- Run the examples of one docstring in order, threading the namespace;
returns (attempted, failed).  `doctest` keeps going after a failure. -/
def runDocstring (ns : List String) : List Ex → Nat × Nat
  | [] => (0, 0)
  | e :: rest =>
      let r := runEx ns e
      let t := runDocstring r.1 rest
      (t.1 + 1, t.2 + (if r.2 then 0 else 1))

/-- `doctest.testmod(module, ...)` with its default `globs`: each docstring
is executed in its own fresh shallow copy of the module's `__dict__`, and
the attempted/failed counts are summed over all docstrings.  Returns
(attempted, failed) — the `TestResults` pair. -/
def testmod (m : PyMod) : Nat × Nat :=
  m.dyn.docs.foldl
    (fun acc d =>
      let r := runDocstring m.dyn.globs d
      (acc.1 + r.1, acc.2 + r.2)) (0, 0)

/-- Specification-side executor, following the spec's words: "execute each
in an isolated namespace seeded empty per module" — identical to `testmod`
except that every docstring's namespace starts empty instead of at a copy
of the module's globals. -/
def testmodSpecEmptySeed (m : PyMod) : Nat × Nat :=
  m.dyn.docs.foldl
    (fun acc d =>
      let r := runDocstring [] d
      (acc.1 + r.1, acc.2 + r.2)) (0, 0)

/-!
## `pkgutil` enumeration

`pkgutil.iter_modules([dir])` lists one directory via the file finder
(`pkgutil._iter_file_finder_modules`): it sorts the directory's entry
names, derives a module name from each `*.py` entry, recognizes a
dot-free subdirectory as a package exactly when it directly contains an
`__init__` entry, skips `__init__` itself and names already yielded, and
skips names containing a dot.  (Only the `.py` suffix is modelled; the
trees under test are pure Python.)

`pkgutil.walk_packages(path, prefix)` yields `iter_modules` of the
directory and, for each package, imports it and recurses into it;
`ImportError` during that import is swallowed (the package is still
yielded but not descended into, `onerror` being `None`), while any other
exception propagates and aborts the walk.
-/

/-- Insert into a list of strings sorted by `strLe`. -/
def insertStr (x : String) : List String → List String
  | [] => [x]
  | y :: ys => if strLe x y then x :: y :: ys else y :: insertStr x ys

/-- Sort entry names as `filenames.sort()` does. -/
def sortStrs : List String → List String
  | [] => []
  | x :: xs => insertStr x (sortStrs xs)

/-- Is `q` the path of a direct child of `p` named `n`?  Used to list a
directory. -/
def childNamed (p : FPath) (q : FPath) : Option String :=
  if q.take p.length == p && q.length == p.length + 1 then q.getLast? else none

/-- `os.listdir(p)`, sorted: the names of the direct children of `p`. -/
def listDir (fs : FS) (p : FPath) : List String :=
  sortStrs (fs.dirs.filterMap (childNamed p) ++ fs.files.filterMap (childNamed p))

/-- `inspect.getmodulename`: strip a recognized module suffix, else `None`.
Only the `.py` suffix is modelled (the trees under test are pure Python);
the check works on the character list so that it evaluates by reduction. -/
def getmodulename (s : String) : Option String :=
  if s.data.reverse.take 3 == ['y', 'p', '.'] then
    some (String.mk (s.data.take (s.data.length - 3)))
  else none

/-- Does the name contain a dot (the `'.' not in fn` checks of
`pkgutil`)? -/
def hasDotChar (s : String) : Bool := s.data.contains '.' 

/-- Does directory `p` directly contain an `__init__` entry?  The check in
`pkgutil` is by name (`getmodulename(fn) == "__init__"`) over `listdir`,
so any entry named `__init__.py` counts. -/
def hasDirectInit (fs : FS) (p : FPath) : Bool :=
  (listDir fs p).any (fun n => getmodulename n == some "__init__")

/-- The body of `pkgutil._iter_file_finder_modules` for one entry name,
with the already-yielded names threaded through: returns the
`(modname, ispkg)` to yield, if any.  An entry with a `.py` suffix yields
its stem (whether file or directory — `pkgutil` does not check); a
suffix-free, dot-free directory yields itself as a package when it has a
direct `__init__`; the stem `__init__`, stems already yielded, empty stems
and stems containing a dot are skipped. -/
def finderEntry (fs : FS) (p : FPath) (seen : List String) (fn : String) :
    Option (String × Bool) :=
  match getmodulename fn with
  | some m =>
      if m == "__init__" || seen.contains m then none
      else if m ≠ "" && !hasDotChar m then some (m, false) else none
  | none =>
      if fs.isDir (p ++ [fn]) && !hasDotChar fn then
        if hasDirectInit fs (p ++ [fn]) then some (fn, true) else none
      else none

/-- Fold of `finderEntry` over the sorted entry names, threading the
yielded set. -/
def finderList (fs : FS) (p : FPath) (seen : List String) :
    List String → List (String × Bool)
  | [] => []
  | fn :: rest =>
      match finderEntry fs p seen fn with
      | some (m, pk) => (m, pk) :: finderList fs p (m :: seen) rest
      | none => finderList fs p seen rest

/-- `pkgutil.iter_modules([p])`: the `(name, ispkg)` pairs for one
directory. -/
def iterModulesAt (fs : FS) (p : FPath) : List (String × Bool) :=
  finderList fs p [] (listDir fs p)

/-- A discovery candidate: dotted name, package flag, and the origin file
the import system would record for it (`dir/__init__.py` for a package,
the `.py` file for a plain module). -/
structure Cand where
  cname : String
  ispkg : Bool
  origin : FPath
deriving DecidableEq

/-- One level of `pkgutil.walk_packages`: process the `(name, ispkg)`
pairs of a directory, recursing into packages through `recur`.  A package
is yielded before it is imported; `ImportError` on that import skips the
descent, any other exception aborts the walk. -/
def walkLevel (env : PyEnv) (recur : FPath → String → Except String (List Cand))
    (dirPath : FPath) (q : String) :
    List (String × Bool) → Except String (List Cand)
  | [] => .ok []
  | (name, pk) :: rest =>
      if pk then
        let c : Cand := ⟨q ++ name, true, dirPath ++ [name, "__init__.py"]⟩
        match env.importDyn (q ++ name) with
        | .ok _ =>
            match recur (dirPath ++ [name]) (q ++ name ++ ".") with
            | .error e => .error e
            | .ok sub =>
                match walkLevel env recur dirPath q rest with
                | .error e => .error e
                | .ok tail => .ok (c :: (sub ++ tail))
        | .importError =>
            match walkLevel env recur dirPath q rest with
            | .error e => .error e
            | .ok tail => .ok (c :: tail)
        | .otherError => .error "unhandled exception while importing a subpackage"
      else
        match walkLevel env recur dirPath q rest with
        | .error e => .error e
        | .ok tail => .ok (⟨q ++ name, false, dirPath ++ [name ++ ".py"]⟩ :: tail)

/-- `pkgutil.walk_packages(path, prefix=q)`, with fuel bounding the
directory-nesting depth (chosen large enough for the whole tree at the
call sites). -/
def walkPkgs (env : PyEnv) (fs : FS) : Nat → FPath → String → Except String (List Cand)
  | 0, _, _ => .ok []
  | fuel + 1, dirPath, q =>
      walkLevel env (walkPkgs env fs fuel) dirPath q (iterModulesAt fs dirPath)

/-- Fuel sufficient for any walk in `fs`: longer than every directory
path. -/
def fuelOf (fs : FS) : Nat :=
  (fs.dirs.map List.length).foldr Nat.max 0 + 1

/-!
## `iter_modules`

The caller-side import loop (`importlib.import_module(subname)` inside
`try/except ImportError: continue`) turns walk candidates into module
objects; the module's `__file__` is the file the candidate was discovered
at, and packages get a `__path__`.
-/

/-- Build the module object for a successfully imported candidate. -/
def modOfCand (c : Cand) (d : ModDyn) : PyMod :=
  ⟨c.cname, some c.origin, if c.ispkg then some c.origin.dropLast else none, d⟩

/-- The guarded import loop over walk candidates: `ImportError` is caught
and the candidate is skipped (`continue` — nothing is recorded), any other
exception propagates and aborts the run. -/
def importCands (env : PyEnv) : List Cand → Except String (List PyMod)
  | [] => .ok []
  | c :: rest =>
      match env.importDyn c.cname with
      | .ok d =>
          match importCands env rest with
          | .error e => .error e
          | .ok tail => .ok (modOfCand c d :: tail)
      | .importError => importCands env rest
      | .otherError => .error "unhandled exception while importing a module"

/-- The `probe` loop of `iter_modules`: walk up from the resolved package
directory to the enclosing directory actually named `src` (reversed-path
recursion, as for `findSrcAux`). -/
def probeSrcAux : List String → Option (List String)
  | [] => none
  | x :: rest => if x == "src" then some (x :: rest) else probeSrcAux rest

/-- The "real src root": the nearest enclosing directory named `src`
(possibly the directory itself), or the directory itself when no ancestor
is named `src`. -/
def srcRootOf (d : FPath) : FPath :=
  match probeSrcAux d.reverse with
  | some r => r.reverse
  | none => d

/-- `sys.path` manipulation of `iter_modules`: `insert(0, src_root_str)`
when it is not already present. -/
def updateSysPath (srcRoot : FPath) (sp : List String) : List String :=
  if sp.contains (pathStr srcRoot) then sp else pathStr srcRoot :: sp

/-- Message of the `RuntimeError` raised when no `src` directory exists in
any ancestor (the Python message quotes the word src; the quotes are
omitted here). -/
def noSrcMsg : String :=
  "Could not locate project src directory for module discovery"

/-- The top-level discovery loop of `iter_modules` (the
`src_or_pkg_dir == src_root` branch): for each package found by
`pkgutil.iter_modules([src_root])` (non-packages are skipped), import
it — *not* guarded, so any failure propagates — yield it, then walk
and import its submodules. -/
def autoTop (env : PyEnv) (fs : FS) (srcRoot : FPath) (fuel : Nat) :
    List (String × Bool) → Except String (List PyMod)
  | [] => .ok []
  | (name, pk) :: rest =>
      if pk then
        match env.importDyn name with
        | .ok d =>
            let pkgMod : PyMod :=
              ⟨name, some (srcRoot ++ [name, "__init__.py"]), some (srcRoot ++ [name]), d⟩
            match walkPkgs env fs fuel (srcRoot ++ [name]) (name ++ ".") with
            | .error e => .error e
            | .ok cands =>
                match importCands env cands with
                | .error e => .error e
                | .ok subs =>
                    match autoTop env fs srcRoot fuel rest with
                    | .error e => .error e
                    | .ok tail => .ok (pkgMod :: (subs ++ tail))
        | .importError => .error "ImportError while importing a top-level package"
        | .otherError => .error "unhandled exception while importing a top-level package"
      else autoTop env fs srcRoot fuel rest

/-- The discovery stage of `iter_modules()` once `_find_src_dir` has
returned directory `d`: either discover all top-level packages under `src`
(when `d` is the `src` root itself), or import the concrete package
directory that was found (dotted name computed from its path relative to
the `src` root — *not* guarded, so failures propagate), yield it and walk
its submodules with the guarded import loop. -/
def discoverAuto (fs : FS) (env : PyEnv) (d : FPath) : Except String (List PyMod) :=
  let srcRoot := srcRootOf d
  if d == srcRoot then
    autoTop env fs srcRoot (fuelOf fs) (iterModulesAt fs srcRoot)
  else
    let basePkg := String.intercalate "." (d.drop srcRoot.length)
    match env.importDyn basePkg with
    | .ok dy =>
        let baseMod : PyMod := ⟨basePkg, some (d ++ ["__init__.py"]), some d, dy⟩
        match walkPkgs env fs (fuelOf fs) d (basePkg ++ ".") with
        | .error e => .error e
        | .ok cands =>
            match importCands env cands with
            | .error e => .error e
            | .ok subs => .ok (baseMod :: subs)
    | .importError => .error "ImportError while importing the base package"
    | .otherError => .error "unhandled exception while importing the base package"

/-- `iter_modules()` with no package name: resolve the package root with
`_find_src_dir` (raising `RuntimeError` when it fails), find the enclosing
`src` root, put it on `sys.path` if absent, then run discovery.  Returns
the discovery outcome together with the final `sys.path`.  In the source
the `sys.path` insertion happens just before discovery; discovery reads
the tree and the import environment, not `sys.path` (the insertion exists
to make the imports succeed), so the pair is assembled from the two
independent computations. -/
def iterModulesAuto (fs : FS) (env : PyEnv) (start : FPath) (sp : List String) :
    Except String (List PyMod) × List String :=
  match findSrcDir fs start with
  | none => (.error noSrcMsg, sp)
  | some d => (discoverAuto fs env d, updateSysPath (srcRootOf d) sp)

/-- `iter_modules(package_name)` with an explicit package name: import
it (failures propagate); a module with no `__path__` is yielded alone;
otherwise the package is yielded and its tree walked with the guarded
per-candidate import loop. -/
def iterModulesNamed (fs : FS) (env : PyEnv) (pkgName : String) :
    Except String (List PyMod) :=
  match env.named pkgName with
  | none => .error "importing the named package failed"
  | some m =>
      match m.pkgDir with
      | none => .ok [m]
      | some p =>
          match walkPkgs env fs (fuelOf fs) p (pkgName ++ ".") with
          | .error e => .error e
          | .ok cands =>
              match importCands env cands with
              | .error e => .error e
              | .ok subs => .ok (m :: subs)

/-!
## `test_docstrings`
-/

/-- The aggregate report of one run: module count, total attempted, total
failed, and the `(name, failed, attempted)` rows collected for modules
with at least one failure, in encounter order. -/
structure Report where
  nModules : Nat
  totalTests : Nat
  totalFailures : Nat
  failedModules : List (String × Nat × Nat)
deriving DecidableEq

/-- The accumulation loop of `test_docstrings`: run `doctest.testmod` on
each module and aggregate. -/
def buildReport (mods : List PyMod) : Report :=
  mods.foldl
    (fun rep m =>
      let r := testmod m
      { nModules := rep.nModules + 1
        totalTests := rep.totalTests + r.1
        totalFailures := rep.totalFailures + r.2
        failedModules :=
          rep.failedModules ++ (if 0 < r.2 then [(m.mname, r.2, r.1)] else []) })
    ⟨0, 0, 0, []⟩

/-- Outcome of one `test_docstrings` run: an uncaught exception during
discovery (`RuntimeError` or an import failure), a failed assertion with
the aggregated report, or success — carrying whether the "No doctests were
found" warning was emitted. -/
inductive Outcome where
  | err (msg : String)
  | assertFailed (rep : Report)
  | passed (rep : Report) (warnedNoTests : Bool)
deriving DecidableEq

/-- Did the run end in the failed assertion? -/
def Outcome.isAssertFailed : Outcome → Bool
  | .assertFailed _ => true
  | _ => false

/-- Number of warnings the run records (the only `warnings.warn` call in
the harness is the "No doctests were found" advisory, emitted after the
assertion has passed). -/
def Outcome.warnCount : Outcome → Nat
  | .passed _ w => if w then 1 else 0
  | _ => 0

/-- `test_docstrings()`: collect the modules (auto-discovery), aggregate
doctest results, assert `total_failures == 0`, then warn when
`total_tests == 0`.  Returns the outcome and the final `sys.path`. -/
def test_docstrings (fs : FS) (env : PyEnv) (start : FPath) (sp : List String) :
    Outcome × List String :=
  match iterModulesAuto fs env start sp with
  | (.error e, sp') => (.err e, sp')
  | (.ok mods, sp') =>
      let rep := buildReport mods
      if rep.totalFailures ≠ 0 then (.assertFailed rep, sp')
      else (.passed rep (rep.totalTests == 0), sp')

/-- The modules a discovery outcome delivers to the execution stage
(none when discovery aborted). -/
def modsOf : Except String (List PyMod) → List PyMod
  | .ok l => l
  | .error _ => []

/-- The claimed `sys.path` effect in the spec's words: "inserts the `src`
directory's *parent* onto the active module search path if not already
present". -/
def sysPathSpecParent (fs : FS) (start : FPath) (sp : List String) : List String :=
  match findSrcDir fs start with
  | none => sp
  | some d =>
      let par := (srcRootOf d).dropLast
      if sp.contains (pathStr par) then sp else pathStr par :: sp

/-!
## Concrete fixtures

A few small filesystems and import environments, mirroring the layout of
the repository under test (`src/config/{__init__.py, add.py}` with the
`add` examples in the docstring of `add`), used to instantiate the
theorems below.
-/

/-- The repository-shaped tree: `repo/src/config` is the only
init-bearing package; `repo/src/rhiza` has a module but no
`__init__.py`. -/
def fsMain : FS :=
  { dirs := [["repo"], ["repo", "tests"], ["repo", "src"], ["repo", "src", "config"],
             ["repo", "src", "rhiza"], ["repo", "book"]]
    files := [["repo", "src", "config", "__init__.py"],
              ["repo", "src", "config", "add.py"],
              ["repo", "src", "rhiza", "add.py"]] }

/-- The docstring of `add`: two examples that call `add` and whose output
matches. -/
def addDoc : List Ex := [⟨["add"], [], true⟩, ⟨["add"], [], true⟩]

/-- Imports for `fsMain` with passing doctests. -/
def envMain : PyEnv :=
  { importDyn := fun n =>
      if n = "config" then .ok ⟨["add"], []⟩
      else if n = "config.add" then .ok ⟨["add"], [addDoc]⟩
      else .importError
    named := fun _ => none }

/-- A tree with no `src` directory anywhere. -/
def fsNoSrc : FS :=
  { dirs := [["a"], ["a", "b"], ["a", "b", "c"]], files := [["a", "b", "readme.md"]] }

/-- A docstring whose one example's output does not match. -/
def badDoc : List Ex := [⟨["add"], [], false⟩]

/-- Imports for `fsMain` where the doctest of `config.add` fails. -/
def envFail : PyEnv :=
  { importDyn := fun n =>
      if n = "config" then .ok ⟨["add"], []⟩
      else if n = "config.add" then .ok ⟨["add"], [badDoc]⟩
      else .importError
    named := fun _ => none }

/-- The modules `envFail` discovery yields on `fsMain`. -/
def modsFail : List PyMod :=
  [⟨"config", some ["repo", "src", "config", "__init__.py"],
      some ["repo", "src", "config"], ⟨["add"], []⟩⟩,
   ⟨"config.add", some ["repo", "src", "config", "add.py"], none, ⟨["add"], [badDoc]⟩⟩]

/-- A tree whose package `pkg` contains one importable module (`good`) and
one module that raises on import (`bad`). -/
def fsBroken : FS :=
  { dirs := [["r"], ["r", "src"], ["r", "src", "pkg"]]
    files := [["r", "src", "pkg", "__init__.py"], ["r", "src", "pkg", "bad.py"],
              ["r", "src", "pkg", "good.py"]] }

/-- Imports for `fsBroken`: `pkg.bad` raises `ImportError`, everything
else imports fine and `pkg.good` has one passing example. -/
def envBroken : PyEnv :=
  { importDyn := fun n =>
      if n = "pkg" then .ok ⟨[], []⟩
      else if n = "pkg.good" then .ok ⟨["add"], [[⟨["add"], [], true⟩]]⟩
      else .importError
    named := fun _ => none }

/-- A tree whose `src` directory contains no package at all (and no
`__init__.py` anywhere). -/
def fsEmptySrc : FS :=
  { dirs := [["r"], ["r", "src"], ["r", "src", "nspkg"]]
    files := [["r", "src", "nspkg", "stuff.py"]] }

/-- A module whose docstring example calls the module's own `add`
binding. -/
def addMod : PyMod :=
  ⟨"config.add", some ["repo", "src", "config", "add.py"], none,
    ⟨["add"], [[⟨["add"], [], true⟩]]⟩⟩

/-- A plain module (no `__path__`), for the explicit-package-name entry
point. -/
def plainMod : PyMod :=
  ⟨"doctest", some ["usr", "lib", "doctest.py"], none, ⟨["testmod"], []⟩⟩

/-- An environment whose named import resolves `doctest` to `plainMod`. -/
def envNamed : PyEnv :=
  { importDyn := fun _ => .importError
    named := fun n => if n = "doctest" then some plainMod else none }

/-!
## Lemmas
-/

/-- The upward walk of `_find_src_dir` scans exactly the ancestors of the
starting path from nearest to farthest, stopping at the first whose `src`
subdirectory exists. -/
theorem findSrcAux_spec (fs : FS) (r : List String) :
    findSrcAux fs r =
      ((r.reverse.inits.reverse.find? (fun c => fs.isDir (c ++ ["src"]))).map
        (fun c => srcResult fs (c ++ ["src"]))) := by
  induction r with
  | nil =>
      by_cases h : fs.isDir ["src"] <;>
        simp [findSrcAux, List.inits, List.find?, h]
  | cons x rest ih =>
      have e1 : (x :: rest).reverse = rest.reverse ++ [x] := by simp
      have h2 : (x :: rest).reverse.inits.reverse
          = (x :: rest).reverse :: rest.reverse.inits.reverse := by
        rw [e1, List.inits_append]
        simp [List.inits]
      rw [h2]
      cases h : fs.isDir ((x :: rest).reverse ++ ["src"]) with
      | true =>
          simp only [List.reverse_cons, List.append_assoc, List.cons_append,
            List.nil_append] at h
          simp [findSrcAux, List.find?_cons, h]
      | false =>
          simp only [List.reverse_cons, List.append_assoc, List.cons_append,
            List.nil_append] at h
          simp [findSrcAux, List.find?_cons, h, ih]

/-- `_find_src_dir` agrees with the specification-side resolver. -/
theorem findSrcDir_eq_spec (fs : FS) (start : FPath) :
    findSrcDir fs start = findSrcDirSpec fs start := by
  rw [findSrcDir, findSrcAux_spec, findSrcDirSpec, nearestSrc, List.reverse_reverse,
    Option.map_map]
  rfl

/-- The aggregation step of `test_docstrings` for one module. -/
theorem buildReport_foldl (mods : List PyMod) (rep : Report) :
    mods.foldl
      (fun rep m =>
        let r := testmod m
        { nModules := rep.nModules + 1
          totalTests := rep.totalTests + r.1
          totalFailures := rep.totalFailures + r.2
          failedModules :=
            rep.failedModules ++ (if 0 < r.2 then [(m.mname, r.2, r.1)] else []) }) rep
    = { nModules := rep.nModules + mods.length
        totalTests := rep.totalTests + (mods.map (fun m => (testmod m).1)).sum
        totalFailures := rep.totalFailures + (mods.map (fun m => (testmod m).2)).sum
        failedModules := rep.failedModules ++
          mods.flatMap (fun m =>
            if 0 < (testmod m).2 then [(m.mname, (testmod m).2, (testmod m).1)] else []) } := by
  induction mods generalizing rep with
  | nil => simp
  | cons m rest ih =>
      simp only [List.foldl_cons, ih, List.length_cons, List.map_cons, List.sum_cons,
        List.flatMap_cons]
      congr 1 <;> first | omega | simp [List.append_assoc]

/-- Total failures aggregated by `test_docstrings` are the sum of the
per-module failed counts. -/
theorem buildReport_totalFailures (mods : List PyMod) :
    (buildReport mods).totalFailures = (mods.map (fun m => (testmod m).2)).sum := by
  rw [buildReport, buildReport_foldl]
  simp

/-- Total attempted examples aggregated by `test_docstrings` are the sum
of the per-module attempted counts. -/
theorem buildReport_totalTests (mods : List PyMod) :
    (buildReport mods).totalTests = (mods.map (fun m => (testmod m).1)).sum := by
  rw [buildReport, buildReport_foldl]
  simp

/-- After `iter_modules` has run once, the `src` root is on `sys.path`. -/
theorem contains_updateSysPath (s : FPath) (sp : List String) :
    (updateSysPath s sp).contains (pathStr s) = true := by
  rw [updateSysPath]
  by_cases h : sp.contains (pathStr s)
  · rw [if_pos h]
    exact h
  · rw [if_neg h]
    simp [List.contains_cons]

/-- Inserting the `src` root a second time changes nothing. -/
theorem updateSysPath_idem (s : FPath) (sp : List String) :
    updateSysPath s (updateSysPath s sp) = updateSysPath s sp := by
  rw [updateSysPath, if_pos (contains_updateSysPath s sp)]

/-- The `sys.path` component of `iter_modules()`: untouched when
resolution fails, otherwise the idempotent insertion of the `src` root. -/
theorem iterAuto_snd (fs : FS) (env : PyEnv) (start : FPath) (sp : List String) :
    (iterModulesAuto fs env start sp).2 =
      match findSrcDir fs start with
      | none => sp
      | some d => updateSysPath (srcRootOf d) sp := by
  rw [iterModulesAuto]
  cases findSrcDir fs start <;> rfl

/-- The discovery component of `iter_modules()` does not depend on the
incoming `sys.path`. -/
theorem iterAuto_fst (fs : FS) (env : PyEnv) (start : FPath) (sp : List String) :
    (iterModulesAuto fs env start sp).1 =
      match findSrcDir fs start with
      | none => .error noSrcMsg
      | some d => discoverAuto fs env d := by
  rw [iterModulesAuto]
  cases findSrcDir fs start <;> rfl

/-- Every module produced by the guarded import loop records the origin
file its candidate was discovered at. -/
theorem importCands_origin (env : PyEnv) (cands : List Cand) (l : List PyMod)
    (h : importCands env cands = .ok l) :
    ∀ m ∈ l, m.origin.isSome = true := by
  induction cands generalizing l with
  | nil =>
      rw [importCands] at h
      cases h
      intro m hm
      cases hm
  | cons c rest ih =>
      rw [importCands] at h
      cases hc : env.importDyn c.cname with
      | ok d =>
          rw [hc] at h
          cases hr : importCands env rest with
          | error e => rw [hr] at h; cases h
          | ok tail =>
              rw [hr] at h
              cases h
              intro m hm
              rcases List.mem_cons.mp hm with h1 | h1
              · subst h1
                rfl
              · exact ih tail hr m h1
      | importError =>
          rw [hc] at h
          exact ih l h
      | otherError =>
          rw [hc] at h
          cases h

/-- Every module produced by the top-level discovery loop records an
origin file. -/
theorem autoTop_origin (env : PyEnv) (fs : FS) (srcRoot : FPath) (fuel : Nat)
    (cs : List (String × Bool)) (l : List PyMod)
    (h : autoTop env fs srcRoot fuel cs = .ok l) :
    ∀ m ∈ l, m.origin.isSome = true := by
  induction cs generalizing l with
  | nil =>
      rw [autoTop] at h
      cases h
      intro m hm
      cases hm
  | cons c rest ih =>
      rw [autoTop] at h
      by_cases hpk : c.2 = true
      · rw [hpk] at h
        simp only [if_pos] at h
        cases hc : env.importDyn c.1 with
        | ok d =>
            simp only [hc] at h
            cases hw : walkPkgs env fs fuel (srcRoot ++ [c.1]) (c.1 ++ ".") with
            | error e => simp only [hw] at h; cases h
            | ok cands =>
                simp only [hw] at h
                cases hi : importCands env cands with
                | error e => simp only [hi] at h; cases h
                | ok subs =>
                    simp only [hi] at h
                    cases ht : autoTop env fs srcRoot fuel rest with
                    | error e => simp only [ht] at h; cases h
                    | ok tail =>
                        simp only [ht] at h
                        cases h
                        intro m hm
                        rcases List.mem_cons.mp hm with h1 | h1
                        · subst h1
                          rfl
                        · rcases List.mem_append.mp h1 with h2 | h2
                          · exact importCands_origin env cands subs hi m h2
                          · exact ih tail ht m h2
        | importError => simp only [hc] at h; cases h
        | otherError => simp only [hc] at h; cases h
      · have : c.2 = false := by
          cases hb : c.2
          · rfl
          · exact absurd hb hpk
        rw [this] at h
        simp only [Bool.false_eq_true, if_neg] at h
        exact ih l h

/-- Every module the automatic discovery stage yields records an origin
file. -/
theorem discoverAuto_origin (fs : FS) (env : PyEnv) (d : FPath) (l : List PyMod)
    (h : discoverAuto fs env d = .ok l) :
    ∀ m ∈ l, m.origin.isSome = true := by
  rw [discoverAuto] at h
  by_cases hd : (d == srcRootOf d) = true
  · rw [if_pos hd] at h
    exact autoTop_origin env fs (srcRootOf d) (fuelOf fs) (iterModulesAt fs (srcRootOf d)) l h
  · rw [if_neg hd] at h
    cases hc : env.importDyn (String.intercalate "." (d.drop (srcRootOf d).length)) with
    | ok dy =>
        simp only [hc] at h
        cases hw : walkPkgs env fs (fuelOf fs) d
            (String.intercalate "." (d.drop (srcRootOf d).length) ++ ".") with
        | error e => simp only [hw] at h; cases h
        | ok cands =>
            simp only [hw] at h
            cases hi : importCands env cands with
            | error e => simp only [hi] at h; cases h
            | ok subs =>
                simp only [hi] at h
                cases h
                intro m hm
                rcases List.mem_cons.mp hm with h1 | h1
                · subst h1
                  rfl
                · exact importCands_origin env cands subs hi m h1
    | importError => simp only [hc] at h; cases h
    | otherError => simp only [hc] at h; cases h


/-!
## The claims
-/

/-- C1: for every starting path that has an ancestor (possibly itself)
with a `src` subdirectory, package-root resolution returns the parent of
the lexicographically first `__init__.py` entry anywhere below the
nearest such `src` directory when at least one exists, and that `src`
directory itself when none exists. -/
theorem C1_package_root_resolution (fs : FS) (start : FPath) (s : FPath)
    (h : nearestSrc fs start = some s) :
    findSrcDir fs start =
      some (match rglobInits fs s with
            | [] => s
            | f :: _ => f.dropLast) := by
  have he := findSrcDir_eq_spec fs start
  rw [findSrcDirSpec, h] at he
  rw [he]
  rfl

/-- C1 witness: on the repository-shaped tree, starting from
`repo/tests`, the nearest `src` is `repo/src` and resolution returns
`repo/src/config` (the parent of its only `__init__.py`). -/
theorem C1_witness :
    nearestSrc fsMain ["repo", "tests"] = some ["repo", "src"] ∧
      findSrcDir fsMain ["repo", "tests"] = some ["repo", "src", "config"] :=
  ⟨by rfl,
    (C1_package_root_resolution fsMain ["repo", "tests"] ["repo", "src"] (by rfl)).trans
      (by rfl)⟩

/-- C2: when no ancestor of the starting path has a `src` subdirectory,
`iter_modules()` fails with the discovery `RuntimeError`; the run aborts
with that error, so no module is enumerated and no example executed, and
`sys.path` is untouched. -/
theorem C2_no_src_is_fatal (fs : FS) (env : PyEnv) (start : FPath) (sp : List String)
    (h : nearestSrc fs start = none) :
    iterModulesAuto fs env start sp = (.error noSrcMsg, sp) ∧
      test_docstrings fs env start sp = (.err noSrcMsg, sp) := by
  have hf : findSrcDir fs start = none := by
    rw [findSrcDir_eq_spec, findSrcDirSpec, h]
    rfl
  refine ⟨?_, ?_⟩
  · rw [iterModulesAuto, hf]
  · rw [test_docstrings, iterModulesAuto, hf]

/-- C2 witness: a tree with no `src` directory anywhere. -/
theorem C2_witness :
    nearestSrc fsNoSrc ["a", "b", "c"] = none ∧
      test_docstrings fsNoSrc envMain ["a", "b", "c"] [] = (.err noSrcMsg, []) :=
  ⟨by rfl, (C2_no_src_is_fatal fsNoSrc envMain ["a", "b", "c"] [] (by rfl)).2⟩

/-- C3: given that discovery succeeded with module list `mods`, the run
raises the failed assertion if and only if the failed example blocks
summed over all discovered modules number more than zero. -/
theorem C3_verdict_rule (fs : FS) (env : PyEnv) (start : FPath) (sp : List String)
    (mods : List PyMod) (h : (iterModulesAuto fs env start sp).1 = .ok mods) :
    (test_docstrings fs env start sp).1.isAssertFailed = true ↔
      0 < (mods.map (fun m => (testmod m).2)).sum := by
  rcases hP : iterModulesAuto fs env start sp with ⟨r, sp2⟩
  rw [hP] at h
  simp only at h
  subst h
  rw [test_docstrings, hP]
  have hsum := buildReport_totalFailures mods
  show (if (buildReport mods).totalFailures ≠ 0
      then ((Outcome.assertFailed (buildReport mods), sp2) : Outcome × List String)
      else (.passed (buildReport mods) ((buildReport mods).totalTests == 0), sp2)
    ).1.isAssertFailed = true ↔ 0 < (mods.map (fun m => (testmod m).2)).sum
  by_cases hz : (buildReport mods).totalFailures ≠ 0
  · rw [if_pos hz]
    rw [hsum] at hz
    constructor
    · intro _
      omega
    · intro _
      rfl
  · rw [if_neg hz]
    rw [hsum] at hz
    constructor
    · intro hh
      exact absurd hh (by simp [Outcome.isAssertFailed])
    · intro hpos
      omega

/-- C3 witness: on the repository-shaped tree with a failing doctest in
`config.add`, the assertion fires, matching the positive failure sum. -/
theorem C3_witness :
    ((test_docstrings fsMain envFail ["repo", "tests"] []).1.isAssertFailed = true ↔
        0 < (modsFail.map (fun m => (testmod m).2)).sum) ∧
      (test_docstrings fsMain envFail ["repo", "tests"] []).1.isAssertFailed = true :=
  ⟨C3_verdict_rule fsMain envFail ["repo", "tests"] [] modsFail (by rfl), by decide⟩

/-- C4 counterexample: `pkg` contains exactly one module (`pkg.bad`) that
raises on import.  Enumeration does continue — the run yields `pkg` and
`pkg.good` and is not aborted — but the failure is swallowed silently by
`except ImportError: continue`: the run records zero warnings, not the
claimed exactly one. -/
theorem C4_counterexample :
    (modsOf (iterModulesAuto fsBroken envBroken ["r"] []).1).map PyMod.mname
        = ["pkg", "pkg.good"] ∧
      (test_docstrings fsBroken envBroken ["r"] []).1.warnCount = 0 := by
  decide

/-- C4 (amended): every candidate module name is imported; a candidate
whose import raises `ImportError` is skipped silently — no warning is
recorded anywhere in enumeration, whose only outputs are the module list
— and enumeration continues, yielding exactly the modules of the
candidates whose import succeeds; the run is not aborted (an exception
other than `ImportError` would propagate instead). -/
theorem C4_import_failure_isolation (env : PyEnv) (cands : List Cand)
    (h : ∀ c ∈ cands, env.importDyn c.cname ≠ .otherError) :
    importCands env cands =
      .ok (cands.filterMap (fun c =>
        match env.importDyn c.cname with
        | .ok d => some (modOfCand c d)
        | _ => none)) := by
  induction cands with
  | nil => rfl
  | cons c rest ih =>
      have hc := h c (List.mem_cons_self c rest)
      have hrest : ∀ x ∈ rest, env.importDyn x.cname ≠ .otherError :=
        fun x hx => h x (List.mem_cons_of_mem c hx)
      rw [importCands, List.filterMap_cons]
      cases hi : env.importDyn c.cname with
      | ok d => rw [ih hrest]
      | importError => rw [ih hrest]
      | otherError => exact absurd hi hc

/-- C4 amended witness: the two walk candidates of `fsBroken`, one of
which raises `ImportError`, produce exactly the one importable module. -/
theorem C4_witness :
    importCands envBroken
        [⟨"pkg.bad", false, ["r", "src", "pkg", "bad.py"]⟩,
         ⟨"pkg.good", false, ["r", "src", "pkg", "good.py"]⟩]
      = .ok [modOfCand ⟨"pkg.good", false, ["r", "src", "pkg", "good.py"]⟩
               ⟨["add"], [[⟨["add"], [], true⟩]]⟩] :=
  (C4_import_failure_isolation envBroken
      [⟨"pkg.bad", false, ["r", "src", "pkg", "bad.py"]⟩,
       ⟨"pkg.good", false, ["r", "src", "pkg", "good.py"]⟩]
      (by decide)).trans (by rfl)

/-- C5 counterexample: on the repository-shaped tree the discovered `src`
root is `repo/src`; the run leaves `sys.path` as `["/repo/src"]` — the
`src` directory itself — whereas the claimed insertion of the `src`
directory's *parent* would leave `["/repo"]`. -/
theorem C5_counterexample :
    (iterModulesAuto fsMain envMain ["repo", "tests"] []).2 = ["/repo/src"] ∧
      sysPathSpecParent fsMain ["repo", "tests"] [] = ["/repo"] ∧
      (iterModulesAuto fsMain envMain ["repo", "tests"] []).2 ≠
        sysPathSpecParent fsMain ["repo", "tests"] [] := by
  refine ⟨by rfl, by rfl, ?_⟩
  decide

/-- C5 (amended): module discovery prepends the `src` directory *itself*
(not its parent) onto the module search path, and only when it is not
already present; nothing is ever removed, and the operation is idempotent,
so repeated runs never create a duplicate entry. -/
theorem C5_sys_path_effect (fs : FS) (env : PyEnv) (start : FPath) (sp : List String) :
    ((iterModulesAuto fs env start sp).2 = sp ∨
      (∃ s, (iterModulesAuto fs env start sp).2 = s :: sp ∧ sp.contains s = false)) ∧
      (iterModulesAuto fs env start ((iterModulesAuto fs env start sp).2)).2 =
        (iterModulesAuto fs env start sp).2 := by
  simp only [iterAuto_snd]
  cases hf : findSrcDir fs start with
  | none => exact ⟨Or.inl rfl, rfl⟩
  | some d =>
      refine ⟨?_, updateSysPath_idem _ _⟩
      by_cases hc : sp.contains (pathStr (srcRootOf d))
      · left
        show updateSysPath (srcRootOf d) sp = sp
        rw [updateSysPath, if_pos hc]
      · right
        refine ⟨pathStr (srcRootOf d), ?_, by simpa using hc⟩
        show updateSysPath (srcRootOf d) sp = pathStr (srcRootOf d) :: sp
        rw [updateSysPath, if_neg hc]

/-- C6: when discovery succeeds with zero modules, zero examples are
attempted, the run emits the non-fatal "No doctests were found" warning
and still passes — absence of examples is never by itself a failure. -/
theorem C6_no_examples_warns (fs : FS) (env : PyEnv) (start : FPath) (sp : List String)
    (h : (iterModulesAuto fs env start sp).1 = .ok []) :
    (test_docstrings fs env start sp).1 = .passed ⟨0, 0, 0, []⟩ true := by
  rcases hP : iterModulesAuto fs env start sp with ⟨r, sp2⟩
  rw [hP] at h
  simp only at h
  subst h
  rw [test_docstrings, hP]
  rfl

/-- C6 witness: a `src` directory containing no package at all discovers
zero modules, warns, and passes. -/
theorem C6_witness :
    (test_docstrings fsEmptySrc envMain ["r"] []).1 = .passed ⟨0, 0, 0, []⟩ true :=
  C6_no_examples_warns fsEmptySrc envMain ["r"] [] (by rfl)

/-- C7 counterexample: for a module binding `add` whose docstring example
calls `add`, the real executor (namespace seeded with a copy of the
module's `__dict__`, as `doctest.testmod` does by default) reports the
example as passing, while the claimed empty-seeded executor would report
it failing with a `NameError` — so examples are *not* run in a namespace
seeded empty per module. -/
theorem C7_counterexample :
    testmod addMod = (1, 0) ∧ testmodSpecEmptySeed addMod = (1, 1) ∧
      testmod addMod ≠ testmodSpecEmptySeed addMod := by
  decide

/-- C7 (amended): each docstring of a module is executed in a namespace
seeded with a fresh copy of that module's own globals (so module bindings
are visible, but nothing mutated during execution leaks back), and a
module's contribution to the aggregate is a function of that module
alone — no bindings carry over from other modules' executions. -/
theorem C7_namespace_isolation (pre post : List PyMod) (m : PyMod) :
    (buildReport (pre ++ m :: post)).totalFailures
        = (buildReport pre).totalFailures + (testmod m).2 +
            (buildReport post).totalFailures ∧
      (buildReport (pre ++ m :: post)).totalTests
        = (buildReport pre).totalTests + (testmod m).1 + (buildReport post).totalTests ∧
      testmod m =
        m.dyn.docs.foldl
          (fun acc d =>
            let r := runDocstring m.dyn.globs d
            (acc.1 + r.1, acc.2 + r.2)) (0, 0) := by
  refine ⟨?_, ?_, rfl⟩
  · rw [buildReport_totalFailures, buildReport_totalFailures, buildReport_totalFailures,
      List.map_append, List.sum_append, List.map_cons, List.sum_cons]
    omega
  · rw [buildReport_totalTests, buildReport_totalTests, buildReport_totalTests,
      List.map_append, List.sum_append, List.map_cons, List.sum_cons]
    omega

/-- C8: no module that reaches the execution stage lacks a resolvable
origin file: every module discovery can yield is built from a discovered
`.py`/`__init__.py` entry and records it as origin, so pure-namespace
directories (no initializer) are excluded — at enumeration, by the
package-walking convention — and this exclusion contributes neither
failures nor errors (the verdict is built from the yielded modules
only). -/
theorem C8_namespace_packages_excluded (fs : FS) (env : PyEnv) (start : FPath)
    (sp : List String) :
    (modsOf (iterModulesAuto fs env start sp).1).all
      (fun m => m.origin.isSome) = true := by
  rw [iterAuto_fst]
  cases hf : findSrcDir fs start with
  | none => rfl
  | some d =>
      show (modsOf (discoverAuto fs env d)).all (fun m => m.origin.isSome) = true
      cases hd : discoverAuto fs env d with
      | error e => rfl
      | ok l =>
          rw [List.all_eq_true]
          intro m hm
          exact discoverAuto_origin fs env d l hd m hm

/-- C9: running the harness twice in succession on an unchanged tree
yields identical outcomes — the same total attempted, total failed and
per-module failure breakdown — and the second run leaves `sys.path`
exactly as the first did. -/
theorem C9_idempotent_runs (fs : FS) (env : PyEnv) (start : FPath) (sp : List String) :
    test_docstrings fs env start ((test_docstrings fs env start sp).2) =
      test_docstrings fs env start sp := by
  have hsnd : ∀ q : List String, (test_docstrings fs env start q).2 =
      (iterModulesAuto fs env start q).2 := by
    intro q
    rw [test_docstrings]
    rcases hP : iterModulesAuto fs env start q with ⟨r, sp2⟩
    cases r with
    | error e => rfl
    | ok mods =>
        simp only
        split <;> rfl
  have hout : ∀ q1 q2 : List String, (test_docstrings fs env start q1).1 =
      (test_docstrings fs env start q2).1 := by
    intro q1 q2
    rw [test_docstrings, test_docstrings]
    have h1 := iterAuto_fst fs env start q1
    have h2 := iterAuto_fst fs env start q2
    rcases hP1 : iterModulesAuto fs env start q1 with ⟨r1, a1⟩
    rcases hP2 : iterModulesAuto fs env start q2 with ⟨r2, a2⟩
    rw [hP1] at h1
    rw [hP2] at h2
    simp only at h1 h2
    have : r1 = r2 := h1.trans h2.symm
    subst this
    cases r1 with
    | error e => rfl
    | ok mods =>
        simp only
        split <;> rfl
  have hpath : (test_docstrings fs env start ((test_docstrings fs env start sp).2)).2 =
      (test_docstrings fs env start sp).2 := by
    simp only [hsnd, iterAuto_snd]
    cases hf : findSrcDir fs start with
    | none => rfl
    | some d => exact updateSysPath_idem _ _
  have houtc := hout ((test_docstrings fs env start sp).2) sp
  exact Prod.ext houtc hpath

/-- C10: `iter_modules` with an explicit package name that resolves to a
plain module — one with no `__path__` — yields exactly that module and
nothing else. -/
theorem C10_plain_module_single_yield (fs : FS) (env : PyEnv) (n : String) (m : PyMod)
    (h1 : env.named n = some m) (h2 : m.pkgDir = none) :
    iterModulesNamed fs env n = .ok [m] := by
  obtain ⟨mn, mo, mp, md⟩ := m
  simp only [PyMod.pkgDir] at h2
  subst h2
  rw [iterModulesNamed, h1]

/-- C10 witness: the explicit name `doctest` resolves to a plain module
and is yielded alone. -/
theorem C10_witness :
    iterModulesNamed fsMain envNamed "doctest" = .ok [plainMod] :=
  C10_plain_module_single_yield fsMain envNamed "doctest" plainMod (by rfl) (by rfl)

end Docstrings
